import Mathlib

/-
Verification development for the portfolio KPI dashboard
(src/portfolio_dashboard.py).  Monetary amounts and percentages are
embedded as exact rationals (ℚ); Python dictionaries become structures,
Python `None` becomes `Option`, and guarded divisions are translated
with their guards intact.  Python f-string descriptions are embedded as
a tagged datatype (`RiskDesc`) carrying the interpolated numbers, since
only the branch identity (not the decimal rendering) is semantically
relevant.
-/

namespace PortfolioKPIs

/-- ASCII lower-casing of one character code — Python `str.lower`
restricted to the ASCII range, which covers both tokens the source ever
matches against. -/
def lowerCode (n : ℕ) : ℕ := if 65 ≤ n ∧ n ≤ 90 then n + 32 else n

/-- The lower-cased character codes of a string (`s.lower()`). -/
def lowerCodes (s : String) : List ℕ :=
  s.data.map (fun c => lowerCode c.toNat)

/-- Substring test on code lists: does `pat` occur as a contiguous
infix?  Embeds Python's `in` on strings. -/
def codesHasInfix (pat : List ℕ) : List ℕ → Bool
  | [] => pat.isEmpty
  | c :: cs => List.isPrefixOf pat (c :: cs) || codesHasInfix pat cs

/-- Embedding of the repeated source idiom
`'risk' in wp.get('description','').lower() and 'contingenc' in wp.get('description','').lower()`
used both by the parser (to set `is_risk_contingency`) and by
`calculate_contingency_metrics` / `assess_project_risks` (which re-derive
it from the description). -/
def isRiskContingencyDesc (description : String) : Bool :=
  codesHasInfix (lowerCodes "risk") (lowerCodes description) &&
    codesHasInfix (lowerCodes "contingenc") (lowerCodes description)

/-- Source: `calculate_period_variance(current_value, previous_value)`.
The `float(...)`/`None` coercions of the source are resolved by the ℚ
embedding; the `try/except` cannot fire on already-numeric inputs. -/
def calculate_period_variance (current_value previous_value : ℚ) : ℚ :=
  if previous_value = 0 then (if current_value > 0 then 100 else 0)
  else ((current_value - previous_value) / |previous_value|) * 100

/-- Source: `calculate_poc_velocity(poc_current, poc_previous)` — the
plain difference of the two POC percentages. -/
def calculate_poc_velocity (poc_current poc_previous : ℚ) : ℚ :=
  poc_current - poc_previous

/-- A parsed work package (one value of the `work_packages` dict built by
`parse_excel_template_v24`).  `variance_pct`, `commitmentRat`
(source key `commitment_ratio`) and `is_risk_contingency` are stored as
fields exactly as the parser stores its derived values. -/
structure WorkPackage where
  code : String
  description : String
  as_sold : ℚ
  committed : ℚ
  ctc : ℚ
  fct_n : ℚ
  fct_n1 : ℚ
  actuals : ℚ
  variance_pct : ℚ
  commitmentRat : ℚ
  is_risk_contingency : Bool
deriving DecidableEq, Repr

/-- The derived `variance_pct` exactly as the parser computes it:
`calculate_period_variance(fct_n, as_sold) if as_sold > 0 else 0`. -/
def wpVariancePct (fct_n as_sold : ℚ) : ℚ :=
  if as_sold > 0 then calculate_period_variance fct_n as_sold else 0

/-- Construction of one work package from the raw row cells, with the
derived fields set exactly as in `parse_excel_template_v24` (lines
777-791 of the source). -/
def mkWorkPackage (code description : String)
    (as_sold committed ctc fct_n fct_n1 actuals : ℚ) : WorkPackage :=
  { code := code
    description := description
    as_sold := as_sold
    committed := committed
    ctc := ctc
    fct_n := fct_n
    fct_n1 := fct_n1
    actuals := actuals
    variance_pct := wpVariancePct fct_n as_sold
    commitmentRat := if as_sold > 0 then committed / as_sold else 0
    is_risk_contingency := isRiskContingencyDesc description }

/-- Return value of `calculate_contingency_metrics`.  In the
no-contingency branch the source dict omits the keys `remaining_amount`,
`remaining_percentage`, `early_consumption`, `recent_consumption`,
`trend_icon`; downstream reads use `.get(..., 0)` semantics, so they are
embedded as `0` / `""` there. -/
structure ContingencyMetrics where
  has_contingency : Bool
  contingency_as_sold : ℚ
  contingency_fct_n1 : ℚ
  contingency_fct_n : ℚ
  consumed_amount : ℚ
  consumed_percentage : ℚ
  remaining_amount : ℚ
  remaining_percentage : ℚ
  efficiency : Option ℚ
  trend : String
  trend_icon : String
  status : String
  status_icon : String
  status_color : String
  early_consumption : ℚ
  recent_consumption : ℚ
deriving DecidableEq, Repr

/-- Source: `calculate_contingency_metrics(work_packages, poc_current)`.
`work_packages.values()` is embedded as the list of packages. -/
def calculate_contingency_metrics (work_packages : List WorkPackage)
    (poc_current : ℚ) : ContingencyMetrics :=
  let risk_contingencies :=
    work_packages.filter (fun wp => isRiskContingencyDesc wp.description)
  if risk_contingencies.isEmpty then
    { has_contingency := false
      contingency_as_sold := 0
      contingency_fct_n1 := 0
      contingency_fct_n := 0
      consumed_amount := 0
      consumed_percentage := 0
      remaining_amount := 0
      remaining_percentage := 0
      efficiency := none
      trend := "No Contingency"
      trend_icon := ""
      status := "N/A"
      status_icon := "➖"
      status_color := "info"
      early_consumption := 0
      recent_consumption := 0 }
  else
    let contingency_as_sold := (risk_contingencies.map WorkPackage.as_sold).sum
    let contingency_fct_n1 := (risk_contingencies.map WorkPackage.fct_n1).sum
    let contingency_fct_n := (risk_contingencies.map WorkPackage.fct_n).sum
    let consumed_amount := contingency_as_sold - contingency_fct_n
    let consumed_percentage :=
      if contingency_as_sold > 0 then consumed_amount / contingency_as_sold * 100 else 0
    let efficiency0 :=
      if poc_current > 0 then (2 - consumed_percentage / poc_current) * 100 else 200
    let efficiency := max 0 (min 200 efficiency0)
    let early_consumption :=
      if contingency_as_sold > 0 then contingency_as_sold - contingency_fct_n1 else 0
    let recent_consumption :=
      if contingency_fct_n1 > 0 then contingency_fct_n1 - contingency_fct_n else 0
    let trendPair :=
      if early_consumption > 0 ∧ recent_consumption > early_consumption * 1.2 then
        ("Accelerating", "↗️")
      else if recent_consumption < early_consumption * 0.8 then
        ("Improving", "↘️")
      else
        ("Stable", "→")
    let statusTriple :=
      if efficiency ≥ 150 then ("Excellent", "🟢", "success")
      else if efficiency ≥ 120 then ("Good", "🟢", "success")
      else if efficiency ≥ 80 then ("On Track", "🟦", "info")
      else if efficiency ≥ 50 then ("Warning", "🟡", "warning")
      else ("Critical", "🔴", "error")
    { has_contingency := true
      contingency_as_sold := contingency_as_sold
      contingency_fct_n1 := contingency_fct_n1
      contingency_fct_n := contingency_fct_n
      consumed_amount := consumed_amount
      consumed_percentage := consumed_percentage
      remaining_amount := contingency_fct_n
      remaining_percentage :=
        if contingency_as_sold > 0 then contingency_fct_n / contingency_as_sold * 100 else 0
      efficiency := some efficiency
      trend := trendPair.1
      trend_icon := trendPair.2
      status := statusTriple.1
      status_icon := statusTriple.2.1
      status_color := statusTriple.2.2
      early_consumption := early_consumption
      recent_consumption := recent_consumption }

/-- Classification tiers returned (as strings) by
`get_traffic_light_status`; embedded as an enumeration in bijection with
the source's lowercase tier strings. -/
inductive Tier
  | excellent
  | good
  | stable
  | warning
  | critical
deriving DecidableEq, Repr

/-- Threshold dict for one metric, as passed to
`get_traffic_light_status`.  The optional `stable` key mirrors the
source's `'stable' in thresholds` membership test; the `critical` key is
never read by the classifier and is omitted. -/
structure Thresholds where
  excellent : ℚ
  good : ℚ
  stable : Option ℚ
  warning : ℚ
deriving DecidableEq, Repr

/-- A Python float input to the classifier: either NaN or a rational
value.  Embeds IEEE comparison semantics (every comparison with NaN is
false). -/
inductive PyFloat
  | nan
  | num (q : ℚ)
deriving DecidableEq, Repr

/-- Embedding of Python `value >= c` (false when value is NaN). -/
def pyGe (value : PyFloat) (c : ℚ) : Bool :=
  match value with
  | .nan => false
  | .num q => decide (c ≤ q)

/-- Embedding of Python `value <= c` (false when value is NaN). -/
def pyLe (value : PyFloat) (c : ℚ) : Bool :=
  match value with
  | .nan => false
  | .num q => decide (q ≤ c)

/-- Embedding of `'stable' in thresholds and value >= thresholds['stable']`. -/
def stableGe (value : PyFloat) (s : Option ℚ) : Bool :=
  match s with
  | some c => pyGe value c
  | none => false

/-- Source: `get_traffic_light_status(value, thresholds, reverse)`,
returning the `(icon, label, tier)` triple. -/
def get_traffic_light_status (value : PyFloat) (thresholds : Thresholds)
    (reverse : Bool) : String × String × Tier :=
  if reverse then
    if pyLe value thresholds.excellent then ("🟢", "Excellent", Tier.excellent)
    else if pyLe value thresholds.good then ("🟢", "Good", Tier.good)
    else if pyLe value thresholds.warning then ("🟡", "Warning", Tier.warning)
    else ("🔴", "Critical", Tier.critical)
  else
    if pyGe value thresholds.excellent then ("🟢", "Excellent", Tier.excellent)
    else if pyGe value thresholds.good then ("🟢", "Good", Tier.good)
    else if stableGe value thresholds.stable then ("🟦", "Stable", Tier.stable)
    else if pyGe value thresholds.warning then ("🟡", "Warning", Tier.warning)
    else ("🔴", "Critical", Tier.critical)

/-- Modelled from the spec: the classification cascade of §4.1, written
from the spec's words for refinement comparison with the source
classifier. -/
def specClassifyTier (value : PyFloat) (thresholds : Thresholds)
    (reverse : Bool) : Tier :=
  if reverse then
    if pyLe value thresholds.excellent then Tier.excellent
    else if pyLe value thresholds.good then Tier.good
    else if pyLe value thresholds.warning then Tier.warning
    else Tier.critical
  else
    if pyGe value thresholds.excellent then Tier.excellent
    else if pyGe value thresholds.good then Tier.good
    else if stableGe value thresholds.stable then Tier.stable
    else if pyGe value thresholds.warning then Tier.warning
    else Tier.critical

/-- Rank of a tier, larger = better; used to state that a smaller value
never classifies to a strictly better tier. -/
def tierRank : Tier → ℕ
  | .critical => 0
  | .warning => 1
  | .stable => 2
  | .good => 3
  | .excellent => 4

/-- CM2 margin thresholds of `EXECUTIVE_THRESHOLDS['cm2_margin']`. -/
def cm2_margin_excellent : ℚ := 15

/-- See `cm2_margin_excellent`. -/
def cm2_margin_good : ℚ := 10

/-- See `cm2_margin_excellent`. -/
def cm2_margin_warning : ℚ := 5

/-- The `cost_analysis` dict of one project, restricted to the fields
read and written by the derivation core (CM waterfall, risk rules,
portfolio aggregation). -/
structure CostAnalysis where
  total_as_sold : ℚ
  total_committed : ℚ
  total_fct_n : ℚ
  total_fct_n1 : ℚ
  total_actuals : ℚ
  ec_total_as_sold : ℚ
  ec_total_fct_n1 : ℚ
  ec_total_fct_n : ℚ
  ic_total_as_sold : ℚ
  ic_total_fct_n1 : ℚ
  ic_total_fct_n : ℚ
  selling_price_as_sold : ℚ
  selling_price_fct_n1 : ℚ
  selling_price_fct_n : ℚ
  cm1_value_as_sold : ℚ
  cm1_pct_as_sold : ℚ
  cm2_value_as_sold : ℚ
  cm2_pct_as_sold : ℚ
  cm1_value_fct_n1 : ℚ
  cm1_pct_fct_n1 : ℚ
  cm2_value_fct_n1 : ℚ
  cm2_pct_fct_n1 : ℚ
  cm1_value_fct_n : ℚ
  cm1_pct_fct_n : ℚ
  cm2_value_fct_n : ℚ
  cm2_pct_fct_n : ℚ
  committedRat : ℚ
  cost_variance_pct : ℚ

/-- The CM1/CM2 derivation pass of `parse_excel_template_v24` (lines
852-892): for each of the three periods, the four CM fields are
assigned only under `if selling_price_<period> > 0`, otherwise they keep
their previous (parser-initialised zero) values. -/
def applyCMCalculations (ca : CostAnalysis) : CostAnalysis :=
  let ca1 :=
    if ca.selling_price_as_sold > 0 then
      { ca with
        cm1_value_as_sold := ca.selling_price_as_sold - ca.ec_total_as_sold
        cm1_pct_as_sold :=
          (ca.selling_price_as_sold - ca.ec_total_as_sold) / ca.selling_price_as_sold * 100
        cm2_value_as_sold :=
          ca.selling_price_as_sold - ca.ec_total_as_sold - ca.ic_total_as_sold
        cm2_pct_as_sold :=
          (ca.selling_price_as_sold - ca.ec_total_as_sold - ca.ic_total_as_sold) /
            ca.selling_price_as_sold * 100 }
    else ca
  let ca2 :=
    if ca1.selling_price_fct_n1 > 0 then
      { ca1 with
        cm1_value_fct_n1 := ca1.selling_price_fct_n1 - ca1.ec_total_fct_n1
        cm1_pct_fct_n1 :=
          (ca1.selling_price_fct_n1 - ca1.ec_total_fct_n1) / ca1.selling_price_fct_n1 * 100
        cm2_value_fct_n1 :=
          ca1.selling_price_fct_n1 - ca1.ec_total_fct_n1 - ca1.ic_total_fct_n1
        cm2_pct_fct_n1 :=
          (ca1.selling_price_fct_n1 - ca1.ec_total_fct_n1 - ca1.ic_total_fct_n1) /
            ca1.selling_price_fct_n1 * 100 }
    else ca1
  if ca2.selling_price_fct_n > 0 then
    { ca2 with
      cm1_value_fct_n := ca2.selling_price_fct_n - ca2.ec_total_fct_n
      cm1_pct_fct_n :=
        (ca2.selling_price_fct_n - ca2.ec_total_fct_n) / ca2.selling_price_fct_n * 100
      cm2_value_fct_n :=
        ca2.selling_price_fct_n - ca2.ec_total_fct_n - ca2.ic_total_fct_n
      cm2_pct_fct_n :=
        (ca2.selling_price_fct_n - ca2.ec_total_fct_n - ca2.ic_total_fct_n) /
          ca2.selling_price_fct_n * 100 }
  else ca2

/-- The `revenues` entries of a project that the derivation core reads
(`safe_get_value(data, 'revenues', <label>, <period>)`, defaulting to 0
for absent fields, per §6 of the spec). -/
structure Revenues where
  contract_n : ℚ
  contract_n1 : ℚ
  revenue_n : ℚ
  revenue_n1 : ℚ
  cash_in_n : ℚ
  cash_in_n1 : ℚ
  cash_out_n : ℚ
  cash_out_n1 : ℚ
  poc_n : ℚ
  poc_n1 : ℚ

/-- Source: `assess_margin_trend(cm2_as_sold, cm2_fct_n1, cm2_fct_n)`. -/
def assess_margin_trend (cm2_as_sold cm2_fct_n1 cm2_fct_n : ℚ) : String :=
  if cm2_as_sold = 0 then "📊 Unknown"
  else
    let total_change := cm2_fct_n - cm2_as_sold
    let recent_change := if cm2_fct_n1 ≠ 0 then cm2_fct_n - cm2_fct_n1 else 0
    if total_change > 2 then "📈 Improving"
    else if total_change < -5 then "📉 Severely Declining"
    else if total_change < -2 then "📉 Declining"
    else if |recent_change| ≤ 1 then "📊 Stable"
    else "🌊 Volatile"

/-- Source: `assess_margin_risk(current_cm2, cm2_total_erosion)`, against
the `EXECUTIVE_THRESHOLDS['cm2_margin']` cutoffs. -/
def assess_margin_risk (current_cm2 cm2_total_erosion : ℚ) : String :=
  if cm2_total_erosion > 2 then
    if current_cm2 ≥ cm2_margin_excellent then "🟢 Low"
    else if current_cm2 ≥ cm2_margin_good then "🟢 Low"
    else if current_cm2 ≥ cm2_margin_warning then "🟡 Medium"
    else "🔴 High"
  else if cm2_total_erosion ≥ -2 then
    if current_cm2 ≥ cm2_margin_excellent then "🟢 Low"
    else if current_cm2 ≥ cm2_margin_good then "🟡 Medium"
    else if current_cm2 ≥ cm2_margin_warning then "🟠 High"
    else "🔴 Critical"
  else
    if current_cm2 ≥ cm2_margin_excellent ∧ cm2_total_erosion > -5 then "🟡 Medium"
    else if current_cm2 ≥ cm2_margin_good ∧ cm2_total_erosion > -5 then "🟠 High"
    else if current_cm2 ≥ cm2_margin_warning ∧ cm2_total_erosion > -10 then "🟠 High"
    else "🔴 Critical"

/-- Source: `assess_forecast_reliability(cm2_n1, cm2_n, cm1_n1, cm1_n)`. -/
def assess_forecast_reliability (cm2_n1 cm2_n cm1_n1 cm1_n : ℚ) : String :=
  let cm2_change := if cm2_n1 ≠ 0 then |cm2_n - cm2_n1| else 0
  let cm1_change := if cm1_n1 ≠ 0 then |cm1_n - cm1_n1| else 0
  let avg_change := (cm2_change + cm1_change) / 2
  if avg_change ≤ 1 then "🎯 Highly Reliable"
  else if avg_change ≤ 3 then "✅ Reliable"
  else if avg_change ≤ 5 then "⚠️ Moderately Reliable"
  else "❌ Unreliable"

/-- Fields of the full-analysis dict returned by
`calculate_margin_variability_metrics` when historical data exists.  The
`cm1/cm2_volatility_index` keys (a floating `np.std`, an irrational
square root) are not referenced by any claim and are not embedded. -/
structure MarginVariability where
  cm2_total_erosion : ℚ
  cm2_recent_change : ℚ
  cm2_forecast_accuracy : ℚ
  cm1_total_erosion : ℚ
  cm1_recent_change : ℚ
  cm1_forecast_accuracy : ℚ
  margin_trend : String
  margin_risk_level : String
  forecast_reliability : String
  cm2_erosion_value : ℚ
  cm1_erosion_value : ℚ
  cm2_current : ℚ
  cm1_current : ℚ
  has_historical_data : Bool
  cm2_as_sold : ℚ
  cm2_fct_n1 : ℚ
  cm1_as_sold : ℚ
  cm1_fct_n1 : ℚ
  selling_price_as_sold : ℚ
  selling_price_fct_n : ℚ

/-- The two dict shapes `calculate_margin_variability_metrics` can
return: the early-exit "no data" dict (with `has_historical_data=False`)
or the full metrics dict. -/
inductive MarginVariabilityResult
  | noData (cm2_current cm1_current : ℚ) (message : String)
  | metrics (m : MarginVariability)

/-- Projection of `has_historical_data` from either result shape. -/
def MarginVariabilityResult.histData : MarginVariabilityResult → Bool
  | .noData _ _ _ => false
  | .metrics m => m.has_historical_data

/-- A tagged embedding of the f-string `description` of a RiskFactor:
one constructor per `risk_factors.append(...)` site of
`assess_project_risks`, carrying the interpolated numbers. -/
inductive RiskDesc
  | marginCritical (cm2_pct cm2_warning : ℚ)
  | marginHigh (cm2_pct cm2_good : ℚ)
  | marginMedium (cm2_pct cm2_excellent : ℚ)
  | commitmentSevere (r : ℚ)
  | commitmentHigh (r : ℚ)
  | costVarExtreme (v : ℚ)
  | costVarHigh (v : ℚ)
  | lowPocVelocity (v : ℚ)
  | negativeCashQuarters (neg total : ℕ)
  | revenueDecline (v : ℚ)
  | insufficientContingency (pct : ℚ)
  | lowContingency (pct consumption : ℚ)
  | noContingencyIdentified
  | wpPerformance (high total : ℕ)
  | lowBuffer (pct cm2 : ℚ)
  | assessmentError
deriving DecidableEq, Repr

/-- One entry of the risk register built by `assess_project_risks`. -/
structure RiskFactor where
  rtype : String
  severity : String
  description : RiskDesc
  impact : String
  recommendation : String
deriving DecidableEq, Repr

/-- One project record as consumed by the derivation core: the
`revenues` labels, the `cost_analysis` dict, the CPI/SPI of the earned
value dict, the stored risk register, the `fct_n` values of the
quarterly cash-flow dict, and the work packages. -/
structure ProjectData where
  revenues : Revenues
  cost_analysis : CostAnalysis
  earned_cpi : ℚ
  earned_spi : ℚ
  risk_factors : List RiskFactor
  cash_flow_quarterly : List ℚ
  work_packages : List WorkPackage

/-- Source: `calculate_margin_variability_metrics(project_data)`. -/
def calculate_margin_variability_metrics (pd : ProjectData) : MarginVariabilityResult :=
  let ca := pd.cost_analysis
  let cm2_as_sold := ca.cm2_pct_as_sold
  let cm2_fct_n1 := ca.cm2_pct_fct_n1
  let cm2_fct_n := ca.cm2_pct_fct_n
  let cm1_as_sold := ca.cm1_pct_as_sold
  let cm1_fct_n1 := ca.cm1_pct_fct_n1
  let cm1_fct_n := ca.cm1_pct_fct_n
  let selling_price_as_sold := ca.selling_price_as_sold
  let selling_price_fct_n := ca.selling_price_fct_n
  let has_historical_data :=
    ((cm2_as_sold ≠ 0 ∧ cm2_as_sold ≠ cm2_fct_n) ∨
      (cm2_fct_n1 ≠ 0 ∧ cm2_fct_n1 ≠ cm2_fct_n)) ∨
    ((cm1_as_sold ≠ 0 ∧ cm1_as_sold ≠ cm1_fct_n) ∨
      (cm1_fct_n1 ≠ 0 ∧ cm1_fct_n1 ≠ cm1_fct_n))
  if has_historical_data then
    let cm2_total_erosion := cm2_fct_n - cm2_as_sold
    let cm1_total_erosion := cm1_fct_n - cm1_as_sold
    let cm2_erosion_value := (cm2_total_erosion / 100) * selling_price_fct_n
    let cm1_erosion_value := (cm1_total_erosion / 100) * selling_price_fct_n
    MarginVariabilityResult.metrics
      { cm2_total_erosion := cm2_total_erosion
        cm2_recent_change := cm2_fct_n - cm2_fct_n1
        cm2_forecast_accuracy := if cm2_fct_n1 ≠ 0 then |cm2_fct_n1 - cm2_fct_n| else 0
        cm1_total_erosion := cm1_total_erosion
        cm1_recent_change := cm1_fct_n - cm1_fct_n1
        cm1_forecast_accuracy := if cm1_fct_n1 ≠ 0 then |cm1_fct_n1 - cm1_fct_n| else 0
        margin_trend := assess_margin_trend cm2_as_sold cm2_fct_n1 cm2_fct_n
        margin_risk_level := assess_margin_risk cm2_fct_n cm2_total_erosion
        forecast_reliability :=
          assess_forecast_reliability cm2_fct_n1 cm2_fct_n cm1_fct_n1 cm1_fct_n
        cm2_erosion_value := cm2_erosion_value
        cm1_erosion_value := cm1_erosion_value
        cm2_current := cm2_fct_n
        cm1_current := cm1_fct_n
        has_historical_data := true
        cm2_as_sold := cm2_as_sold
        cm2_fct_n1 := cm2_fct_n1
        cm1_as_sold := cm1_as_sold
        cm1_fct_n1 := cm1_fct_n1
        selling_price_as_sold := selling_price_as_sold
        selling_price_fct_n := selling_price_fct_n }
  else
    MarginVariabilityResult.noData cm2_fct_n cm1_fct_n
      "No historical margin data found for variability analysis"

/-- Margin-risk rule of `assess_project_risks` (dynamic CM2 cascade). -/
def riskMargin (pd : ProjectData) : List RiskFactor :=
  let cm2_pct := pd.cost_analysis.cm2_pct_fct_n
  if cm2_pct < cm2_margin_warning then
    [{ rtype := "Margin Risk", severity := "Critical"
       description := RiskDesc.marginCritical cm2_pct cm2_margin_warning
       impact := "High"
       recommendation := "Immediate cost reduction and revenue optimization required" }]
  else if cm2_pct < cm2_margin_good then
    [{ rtype := "Margin Risk", severity := "High"
       description := RiskDesc.marginHigh cm2_pct cm2_margin_good
       impact := "Medium"
       recommendation := "Review cost structure and identify optimization opportunities" }]
  else if cm2_pct < cm2_margin_excellent then
    [{ rtype := "Margin Risk", severity := "Medium"
       description := RiskDesc.marginMedium cm2_pct cm2_margin_excellent
       impact := "Low"
       recommendation := "Continue monitoring and seek margin enhancement opportunities" }]
  else []

/-- Cost-commitment rule of `assess_project_risks`. -/
def riskCommitment (pd : ProjectData) : List RiskFactor :=
  let r := pd.cost_analysis.committedRat
  if r > 1.2 then
    [{ rtype := "Cost Commitment", severity := "Critical"
       description := RiskDesc.commitmentSevere r
       impact := "High"
       recommendation := "Emergency cost review and procurement controls" }]
  else if r > 1.1 then
    [{ rtype := "Cost Commitment", severity := "High"
       description := RiskDesc.commitmentHigh r
       impact := "Medium"
       recommendation := "Enhanced cost monitoring and approval processes" }]
  else []

/-- Cost-variance rule of `assess_project_risks`. -/
def riskCostVariance (pd : ProjectData) : List RiskFactor :=
  let v := pd.cost_analysis.cost_variance_pct
  if v > 25 then
    [{ rtype := "Cost Variance", severity := "Critical"
       description := RiskDesc.costVarExtreme v
       impact := "High"
       recommendation := "Comprehensive cost baseline review required" }]
  else if v > 15 then
    [{ rtype := "Cost Variance", severity := "High"
       description := RiskDesc.costVarHigh v
       impact := "Medium"
       recommendation := "Detailed variance analysis and corrective action plan" }]
  else []

/-- Schedule/POC rule of `assess_project_risks` (raw POC velocity). -/
def riskSchedule (pd : ProjectData) : List RiskFactor :=
  let poc_velocity := calculate_poc_velocity pd.revenues.poc_n pd.revenues.poc_n1
  if poc_velocity < 2 ∧ pd.revenues.poc_n < 90 then
    [{ rtype := "Schedule Risk", severity := "High"
       description := RiskDesc.lowPocVelocity poc_velocity
       impact := "Medium"
       recommendation := "Resource reallocation and schedule acceleration" }]
  else []

/-- Cash-flow rule of `assess_project_risks` (quarterly `fct_n` values;
the Python `if quarterly_data:` truthiness test is the non-emptiness
test). -/
def riskCashFlow (pd : ProjectData) : List RiskFactor :=
  if pd.cash_flow_quarterly.isEmpty then []
  else
    let negative_quarters := pd.cash_flow_quarterly.countP (fun q => decide (q < 0))
    let total_quarters := pd.cash_flow_quarterly.length
    if (negative_quarters : ℚ) > (total_quarters : ℚ) * 0.3 then
      [{ rtype := "Cash Flow", severity := "High"
         description := RiskDesc.negativeCashQuarters negative_quarters total_quarters
         impact := "High"
         recommendation := "Cash flow optimization and milestone acceleration" }]
    else []

/-- Revenue rule of `assess_project_risks`. -/
def riskRevenue (pd : ProjectData) : List RiskFactor :=
  let revenue_variance :=
    calculate_period_variance pd.revenues.revenue_n pd.revenues.revenue_n1
  if revenue_variance < -15 then
    [{ rtype := "Revenue Risk", severity := "Critical"
       description := RiskDesc.revenueDecline revenue_variance
       impact := "High"
       recommendation := "Revenue recovery plan and stakeholder engagement" }]
  else []

/-- The risk-contingency selection shared by rules 7 and 9 of
`assess_project_risks`. -/
def riskContingencyList (pd : ProjectData) : List WorkPackage :=
  pd.work_packages.filter (fun wp => isRiskContingencyDesc wp.description)

/-- `contingency_percentage` of `assess_project_risks`: remaining
(fct_n) contingency as a percentage of contract value. -/
def contingencyPercentage (pd : ProjectData) : ℚ :=
  let total_risk_contingency := ((riskContingencyList pd).map WorkPackage.fct_n).sum
  let contract_value := pd.revenues.contract_n
  if contract_value > 0 then total_risk_contingency / contract_value * 100 else 0

/-- `contingency_consumption` of `assess_project_risks`. -/
def contingencyConsumption (pd : ProjectData) : ℚ :=
  let total_risk_contingency := ((riskContingencyList pd).map WorkPackage.fct_n).sum
  let original_contingency := ((riskContingencyList pd).map WorkPackage.as_sold).sum
  if original_contingency > 0 then
    (original_contingency - total_risk_contingency) / original_contingency * 100
  else 0

/-- Risk-contingency adequacy rule of `assess_project_risks` (lines
1120-1163): with contingency lines, the `<1%` Medium branch, then the
`<5% remaining and >80% consumed` High branch; with none, the
establish-a-risk-budget High finding. -/
def riskContingencyAdequacy (pd : ProjectData) : List RiskFactor :=
  if (riskContingencyList pd).isEmpty then
    [{ rtype := "Contingency Risk", severity := "High"
       description := RiskDesc.noContingencyIdentified
       impact := "High"
       recommendation := "Establish risk contingency budget for unforeseen events" }]
  else
    let pct := contingencyPercentage pd
    let consumption := contingencyConsumption pd
    if pct < 1 then
      [{ rtype := "Contingency Risk", severity := "Medium"
         description := RiskDesc.insufficientContingency pct
         impact := "Medium"
         recommendation := "Review risk register and consider contingency replenishment" }]
    else if pct < 5 ∧ consumption > 80 then
      [{ rtype := "Contingency Risk", severity := "High"
         description := RiskDesc.lowContingency pct consumption
         impact := "High"
         recommendation := "Monitor emerging risks closely, prepare contingency plan" }]
    else []

/-- The `high_variance_wps` selection of the work-package concentration
rule: non-contingency packages with `variance_pct > 15`. -/
def highVarianceWps (pd : ProjectData) : List WorkPackage :=
  pd.work_packages.filter
    (fun wp => decide (wp.variance_pct > 15) && ! isRiskContingencyDesc wp.description)

/-- Work-package concentration rule of `assess_project_risks`:
`len(work_packages) > 0 and len(high_variance_wps)/len(work_packages) > 0.3`.
The denominator is the count of ALL work packages. -/
def riskWpConcentration (pd : ProjectData) : List RiskFactor :=
  if pd.work_packages.length > 0 ∧
      ((highVarianceWps pd).length : ℚ) / (pd.work_packages.length : ℚ) > 0.3 then
    [{ rtype := "WP Performance Risk", severity := "High"
       description := RiskDesc.wpPerformance (highVarianceWps pd).length pd.work_packages.length
       impact := "High"
       recommendation := "Systemic issue - review estimation or execution processes" }]
  else []

/-- Financial-buffer rule of `assess_project_risks` (the Python `and`
short-circuit makes `contingency_percentage` reachable only when
contingency lines exist). -/
def riskFinancialBuffer (pd : ProjectData) : List RiskFactor :=
  if ¬ (riskContingencyList pd).isEmpty ∧ contingencyPercentage pd < 3 ∧
      pd.cost_analysis.cm2_pct_fct_n < 10 then
    [{ rtype := "Financial Buffer Risk", severity := "Critical"
       description := RiskDesc.lowBuffer (contingencyPercentage pd) pd.cost_analysis.cm2_pct_fct_n
       impact := "High"
       recommendation := "Project has minimal financial buffer for risks" }]
  else []

/-- Source: `assess_project_risks(project_data)` — the sequential
`risk_factors.append(...)` evaluation embedded as the concatenation of
the nine rule segments in source order.  The `except` arm (a synthetic
Assessment Error finding) is unreachable in the ℚ embedding, where every
operation is total. -/
def assess_project_risks (pd : ProjectData) : List RiskFactor :=
  riskMargin pd ++ riskCommitment pd ++ riskCostVariance pd ++ riskSchedule pd ++
    riskCashFlow pd ++ riskRevenue pd ++ riskContingencyAdequacy pd ++
    riskWpConcentration pd ++ riskFinancialBuffer pd

/-- The running `metrics` accumulator dict of
`create_enhanced_portfolio_summary`. -/
structure PMetrics where
  total_contract_value_n : ℚ
  total_contract_value_n1 : ℚ
  total_revenue_n : ℚ
  total_revenue_n1 : ℚ
  total_cash_in_n : ℚ
  total_cash_in_n1 : ℚ
  total_cash_out_n : ℚ
  total_cash_out_n1 : ℚ
  total_cm1_value : ℚ
  total_cm2_value : ℚ
  total_ec : ℚ
  total_ic : ℚ
  total_committed : ℚ
  total_as_sold : ℚ
  valid_projects : ℕ
  weighted_poc_n : ℚ
  weighted_poc_n1 : ℚ
  total_cpi : ℚ
  total_spi : ℚ
  total_risk_score : ℕ
  total_contingency_as_sold : ℚ
  total_contingency_fct_n : ℚ
  weighted_poc_for_contingency : ℚ
  projects_with_contingency : ℕ

/-- The zero-initialised accumulator dict. -/
def initPMetrics : PMetrics :=
  { total_contract_value_n := 0, total_contract_value_n1 := 0
    total_revenue_n := 0, total_revenue_n1 := 0
    total_cash_in_n := 0, total_cash_in_n1 := 0
    total_cash_out_n := 0, total_cash_out_n1 := 0
    total_cm1_value := 0, total_cm2_value := 0
    total_ec := 0, total_ic := 0
    total_committed := 0, total_as_sold := 0
    valid_projects := 0
    weighted_poc_n := 0, weighted_poc_n1 := 0
    total_cpi := 0, total_spi := 0
    total_risk_score := 0
    total_contingency_as_sold := 0, total_contingency_fct_n := 0
    weighted_poc_for_contingency := 0
    projects_with_contingency := 0 }

/-- The `risk_score` contribution of one project inside the aggregation
loop. -/
def projectRiskScore (risk_factors : List RiskFactor) : ℕ :=
  (risk_factors.countP
      (fun r => r.severity == "Critical" || r.severity == "High")) * 2 +
    risk_factors.countP (fun r => r.severity == "Medium")

/-- One iteration of the `for project_id, project in portfolio_data`
loop of `create_enhanced_portfolio_summary`: `None`/falsy `data` is
skipped, and accumulation happens only under `if contract_n > 0`. -/
def summaryStep (m : PMetrics) (entry : Option ProjectData) : PMetrics :=
  match entry with
  | none => m
  | some data =>
    let rv := data.revenues
    if rv.contract_n > 0 then
      let cm := calculate_contingency_metrics data.work_packages rv.poc_n
      { total_contract_value_n := m.total_contract_value_n + rv.contract_n
        total_contract_value_n1 := m.total_contract_value_n1 + rv.contract_n1
        total_revenue_n := m.total_revenue_n + rv.revenue_n
        total_revenue_n1 := m.total_revenue_n1 + rv.revenue_n1
        total_cash_in_n := m.total_cash_in_n + rv.cash_in_n
        total_cash_in_n1 := m.total_cash_in_n1 + rv.cash_in_n1
        total_cash_out_n := m.total_cash_out_n + rv.cash_out_n
        total_cash_out_n1 := m.total_cash_out_n1 + rv.cash_out_n1
        total_cm1_value := m.total_cm1_value + data.cost_analysis.cm1_value_fct_n
        total_cm2_value := m.total_cm2_value + data.cost_analysis.cm2_value_fct_n
        total_ec := m.total_ec + data.cost_analysis.ec_total_fct_n
        total_ic := m.total_ic + data.cost_analysis.ic_total_fct_n
        total_committed := m.total_committed + data.cost_analysis.total_committed
        total_as_sold := m.total_as_sold + data.cost_analysis.total_as_sold
        valid_projects := m.valid_projects + 1
        weighted_poc_n := m.weighted_poc_n + rv.poc_n * rv.contract_n
        weighted_poc_n1 := m.weighted_poc_n1 + rv.poc_n1 * rv.contract_n1
        total_cpi := m.total_cpi + data.earned_cpi
        total_spi := m.total_spi + data.earned_spi
        total_risk_score := m.total_risk_score + projectRiskScore data.risk_factors
        total_contingency_as_sold :=
          m.total_contingency_as_sold +
            (if cm.has_contingency then cm.contingency_as_sold else 0)
        total_contingency_fct_n :=
          m.total_contingency_fct_n +
            (if cm.has_contingency then cm.contingency_fct_n else 0)
        weighted_poc_for_contingency :=
          m.weighted_poc_for_contingency +
            (if cm.has_contingency then rv.poc_n * rv.contract_n else 0)
        projects_with_contingency :=
          m.projects_with_contingency + (if cm.has_contingency then 1 else 0) }
    else m

/-- The summary dict built by `create_enhanced_portfolio_summary` once
the loop is done (reached only with `valid_projects > 0`). -/
structure PortfolioSummary where
  total_contract_value : ℚ
  total_revenue : ℚ
  total_cm1 : ℚ
  total_cm2 : ℚ
  net_cash_flow : ℚ
  project_count : ℕ
  total_contract_value_n1 : ℚ
  total_revenue_n1 : ℚ
  net_cash_flow_n1 : ℚ
  contract_variance : ℚ
  revenue_variance : ℚ
  net_cash_variance : ℚ
  avg_cm1_pct : ℚ
  avg_cm2_pct : ℚ
  portfolio_ec_pct : ℚ
  portfolio_ic_pct : ℚ
  portfolioCommittedRat : ℚ
  avg_cost_performance_index : ℚ
  avg_schedule_performance_index : ℚ
  weighted_poc_n : ℚ
  weighted_poc_n1 : ℚ
  average_risk_score : ℚ
  total_portfolio_value_at_risk : ℚ
  cash_flow_efficiency : ℚ
  portfolio_contingency_efficiency : Option ℚ
  total_contingency_as_sold : ℚ
  total_contingency_fct_n : ℚ
  projects_with_contingency : ℕ
  weighted_poc_velocity : ℚ

/-- Source: `create_enhanced_portfolio_summary(portfolio_data)`.  The
portfolio dict is embedded as the list of its projects' `data` payloads
(`None` for falsy payloads); the early `if not portfolio_data` return
and the `valid_projects == 0` return both yield `none`. -/
def create_enhanced_portfolio_summary
    (portfolio_data : List (Option ProjectData)) : Option PortfolioSummary :=
  if portfolio_data.isEmpty then none
  else
    let m := portfolio_data.foldl summaryStep initPMetrics
    if m.valid_projects = 0 then none
    else
      let portfolio_contingency_efficiency : Option ℚ :=
        if m.projects_with_contingency > 0 ∧ m.total_contingency_as_sold > 0 then
          let consumed := m.total_contingency_as_sold - m.total_contingency_fct_n
          let consumed_pct := consumed / m.total_contingency_as_sold * 100
          let avg_poc :=
            if m.total_contract_value_n > 0 then
              m.weighted_poc_for_contingency / m.total_contract_value_n
            else 0
          if avg_poc > 0 then
            some (max 0 (min 200 ((2 - consumed_pct / avg_poc) * 100)))
          else none
        else none
      let weighted_poc_n :=
        if m.total_contract_value_n > 0 then m.weighted_poc_n / m.total_contract_value_n else 0
      let weighted_poc_n1 :=
        if m.total_contract_value_n1 > 0 then m.weighted_poc_n1 / m.total_contract_value_n1 else 0
      some
        { total_contract_value := m.total_contract_value_n
          total_revenue := m.total_revenue_n
          total_cm1 := m.total_cm1_value
          total_cm2 := m.total_cm2_value
          net_cash_flow := m.total_cash_in_n - m.total_cash_out_n
          project_count := m.valid_projects
          total_contract_value_n1 := m.total_contract_value_n1
          total_revenue_n1 := m.total_revenue_n1
          net_cash_flow_n1 := m.total_cash_in_n1 - m.total_cash_out_n1
          contract_variance :=
            calculate_period_variance m.total_contract_value_n m.total_contract_value_n1
          revenue_variance :=
            calculate_period_variance m.total_revenue_n m.total_revenue_n1
          net_cash_variance :=
            calculate_period_variance (m.total_cash_in_n - m.total_cash_out_n)
              (m.total_cash_in_n1 - m.total_cash_out_n1)
          avg_cm1_pct :=
            if m.total_contract_value_n > 0 then
              m.total_cm1_value / m.total_contract_value_n * 100
            else 0
          avg_cm2_pct :=
            if m.total_contract_value_n > 0 then
              m.total_cm2_value / m.total_contract_value_n * 100
            else 0
          portfolio_ec_pct :=
            if m.total_contract_value_n > 0 then m.total_ec / m.total_contract_value_n * 100
            else 0
          portfolio_ic_pct :=
            if m.total_contract_value_n > 0 then m.total_ic / m.total_contract_value_n * 100
            else 0
          portfolioCommittedRat :=
            if m.total_as_sold > 0 then m.total_committed / m.total_as_sold else 0
          avg_cost_performance_index := m.total_cpi / (m.valid_projects : ℚ)
          avg_schedule_performance_index := m.total_spi / (m.valid_projects : ℚ)
          weighted_poc_n := weighted_poc_n
          weighted_poc_n1 := weighted_poc_n1
          average_risk_score := (m.total_risk_score : ℚ) / (m.valid_projects : ℚ)
          total_portfolio_value_at_risk := 0
          cash_flow_efficiency :=
            if m.total_cash_out_n > 0 then m.total_cash_in_n / m.total_cash_out_n else 1.0
          portfolio_contingency_efficiency := portfolio_contingency_efficiency
          total_contingency_as_sold := m.total_contingency_as_sold
          total_contingency_fct_n := m.total_contingency_fct_n
          projects_with_contingency := m.projects_with_contingency
          weighted_poc_velocity := calculate_poc_velocity weighted_poc_n weighted_poc_n1 }

/-- Modelled from the spec: `period_variance(current, previous)` as the
spec states it — 0 if previous=0 and current=0; 100 if previous=0 and
current>0; else (current−previous)/|previous|×100 (the last case read
with the ℚ convention x/0 = 0). -/
def specPeriodVariance (current previous : ℚ) : ℚ :=
  if previous = 0 ∧ current = 0 then 0
  else if previous = 0 ∧ current > 0 then 100
  else (current - previous) / |previous| * 100

/-- Modelled from the spec: "`has_historical_data` is true only if any
two of the three differ for either CM1 or CM2", i.e. the three CM2
percentages are not all equal, or the three CM1 percentages are not all
equal. -/
def specHasHistoricalData (cm1as cm1n1 cm1n cm2as cm2n1 cm2n : ℚ) : Prop :=
  (¬ (cm2as = cm2n1 ∧ cm2n1 = cm2n)) ∨ (¬ (cm1as = cm1n1 ∧ cm1n1 = cm1n))

instance (cm1as cm1n1 cm1n cm2as cm2n1 cm2n : ℚ) :
    Decidable (specHasHistoricalData cm1as cm1n1 cm1n cm2as cm2n1 cm2n) := by
  unfold specHasHistoricalData
  infer_instance

/-- Modelled from the claim: the work-package concentration trigger with
the 30% fraction taken over the NON-contingency work packages. -/
def specWpConcentration (pd : ProjectData) : Prop :=
  let nonCont := pd.work_packages.filter (fun wp => ! isRiskContingencyDesc wp.description)
  ((nonCont.filter (fun wp => decide (wp.variance_pct > 15))).length : ℚ) >
    (3 / 10) * (nonCont.length : ℚ)

instance (pd : ProjectData) : Decidable (specWpConcentration pd) := by
  unfold specWpConcentration
  infer_instance

/-- The all-zero `cost_analysis` dict as initialised by
`parse_excel_template_v24` before any row is read. -/
def zeroCostAnalysis : CostAnalysis :=
  { total_as_sold := 0, total_committed := 0, total_fct_n := 0, total_fct_n1 := 0
    total_actuals := 0
    ec_total_as_sold := 0, ec_total_fct_n1 := 0, ec_total_fct_n := 0
    ic_total_as_sold := 0, ic_total_fct_n1 := 0, ic_total_fct_n := 0
    selling_price_as_sold := 0, selling_price_fct_n1 := 0, selling_price_fct_n := 0
    cm1_value_as_sold := 0, cm1_pct_as_sold := 0, cm2_value_as_sold := 0, cm2_pct_as_sold := 0
    cm1_value_fct_n1 := 0, cm1_pct_fct_n1 := 0, cm2_value_fct_n1 := 0, cm2_pct_fct_n1 := 0
    cm1_value_fct_n := 0, cm1_pct_fct_n := 0, cm2_value_fct_n := 0, cm2_pct_fct_n := 0
    committedRat := 0, cost_variance_pct := 0 }

/-- All-zero revenues record (every label absent, `safe_get_value`
default). -/
def zeroRevenues : Revenues :=
  { contract_n := 0, contract_n1 := 0, revenue_n := 0, revenue_n1 := 0
    cash_in_n := 0, cash_in_n1 := 0, cash_out_n := 0, cash_out_n1 := 0
    poc_n := 0, poc_n1 := 0 }

/-- The risk-contingency work package of the spec's worked example:
as_sold=1000, fct_n1=900, fct_n=850. -/
def wpC6 : WorkPackage :=
  mkWorkPackage "RC1" "Risk Contingency" 1000 0 0 850 900 0

/-- A healthy project with two contingency packages and four work
packages of which one non-contingency package runs >15% over: the
non-contingency overrun share is 1/2 but the all-packages share is only
1/4. -/
def pdC1 : ProjectData :=
  { revenues := { zeroRevenues with contract_n := 1000, poc_n := 95, poc_n1 := 95 }
    cost_analysis := { zeroCostAnalysis with cm2_pct_fct_n := 20 }
    earned_cpi := 1
    earned_spi := 1
    risk_factors := []
    cash_flow_quarterly := []
    work_packages :=
      [mkWorkPackage "RC1" "Risk Contingency A" 100 0 0 50 80 0,
        mkWorkPackage "RC2" "Risk Contingency B" 100 0 0 50 80 0,
        mkWorkPackage "WP1" "Civil Works" 100 0 0 130 100 0,
        mkWorkPackage "WP2" "Electrical Works" 100 0 0 100 100 0] }

/-- A project whose CM2 percentages are (as_sold, fct_n1, fct_n) =
(0, 0, 5): two of the three values differ, yet both non-current values
are zero. -/
def pdC2 : ProjectData :=
  { revenues := zeroRevenues
    cost_analysis := { zeroCostAnalysis with cm2_pct_fct_n := 5 }
    earned_cpi := 1
    earned_spi := 1
    risk_factors := []
    cash_flow_quarterly := []
    work_packages := [] }

/-- A project whose current contract value is 0 (C9's excluded
project). -/
def pdZeroContract : ProjectData :=
  { revenues :=
      { zeroRevenues with
        contract_n := 0
        contract_n1 := 300
        revenue_n := 50
        revenue_n1 := 40
        cash_in_n := 10
        cash_out_n := 5
        poc_n := 20
        poc_n1 := 10 }
    cost_analysis :=
      { zeroCostAnalysis with
        cm1_value_fct_n := 7
        cm2_value_fct_n := 3
        total_committed := 4
        total_as_sold := 9 }
    earned_cpi := 2
    earned_spi := 3
    risk_factors := []
    cash_flow_quarterly := [1, -1]
    work_packages := [mkWorkPackage "RC1" "Risk Contingency" 100 0 0 50 80 0] }

/-- An ordinary valid project used as the rest of the portfolio in the
C9 witness. -/
def pdValid : ProjectData :=
  { revenues :=
      { zeroRevenues with
        contract_n := 1000
        contract_n1 := 900
        revenue_n := 400
        revenue_n1 := 300
        cash_in_n := 100
        cash_out_n := 80
        poc_n := 40
        poc_n1 := 30 }
    cost_analysis :=
      { zeroCostAnalysis with
        cm1_value_fct_n := 250
        cm2_value_fct_n := 150
        total_committed := 500
        total_as_sold := 800
        ec_total_fct_n := 300
        ic_total_fct_n := 100 }
    earned_cpi := 1
    earned_spi := 1
    risk_factors := []
    cash_flow_quarterly := [30, 40]
    work_packages := [mkWorkPackage "RC1" "Risk Contingency" 100 0 0 60 90 0] }

/-- Concrete cost-analysis record for the C7 witness: selling prices
(1000, 0, 500), external costs (600, 0, 320), internal costs
(150, 0, 90). -/
def caC7 : CostAnalysis :=
  { zeroCostAnalysis with
    selling_price_as_sold := 1000, selling_price_fct_n1 := 0, selling_price_fct_n := 500
    ec_total_as_sold := 600, ec_total_fct_n1 := 0, ec_total_fct_n := 320
    ic_total_as_sold := 150, ic_total_fct_n1 := 0, ic_total_fct_n := 90 }

/-- Thresholds used by the C4 witness (the `revenue_growth` entry of
`EXECUTIVE_THRESHOLDS`, which carries a `stable` tier). -/
def thrC4 : Thresholds :=
  { excellent := 15, good := 5, stable := some (-2), warning := -5 }

/-- Sum of `as_sold` over a project's risk-contingency packages (the
`contingency_as_sold` aggregate of `calculate_contingency_metrics`). -/
def contSumAsSold (wps : List WorkPackage) : ℚ :=
  ((wps.filter (fun wp => isRiskContingencyDesc wp.description)).map
    WorkPackage.as_sold).sum

/-- Sum of `fct_n` over a project's risk-contingency packages. -/
def contSumFctN (wps : List WorkPackage) : ℚ :=
  ((wps.filter (fun wp => isRiskContingencyDesc wp.description)).map
    WorkPackage.fct_n).sum

/-- The `consumed_percentage` value of `calculate_contingency_metrics`,
expressed from the two contingency sums. -/
def contConsumedPct (wps : List WorkPackage) : ℚ :=
  if contSumAsSold wps > 0 then
    (contSumAsSold wps - contSumFctN wps) / contSumAsSold wps * 100
  else 0

/-- C6: for a project whose risk-contingency packages sum to
as_sold=1000, fct_n1=900, fct_n=850 with POC=40%, the contingency engine
returns consumed_percentage = 15, efficiency = (2 − 15/40)×100 = 162.5,
and trend "Improving" (recent consumption 50 versus early consumption
100 takes the `recent < 0.8×early` branch, not "Stable"). -/
theorem contingency_example_behaviour :
    (calculate_contingency_metrics [wpC6] 40).consumed_percentage = 15 ∧
    (calculate_contingency_metrics [wpC6] 40).efficiency = some (162.5 : ℚ) ∧
    (calculate_contingency_metrics [wpC6] 40).trend = "Improving" := by
  have h1 : isRiskContingencyDesc "Risk Contingency" = true := by decide
  refine ⟨?_, ?_, ?_⟩ <;>
    · simp only [calculate_contingency_metrics, wpC6, mkWorkPackage, List.filter, h1,
        List.isEmpty, List.map, List.sum_cons, List.sum_nil]
      norm_num

/-- C3 counterexample: a work package parsed with as_sold=0 and fct_n=5
gets variance_pct = 0 from the parser (the `if as_sold > 0 else 0`
guard), while period_variance(5, 0) = 100 — refuting the claimed
unconditional equality and its as_sold=0 corollary. -/
theorem variance_pct_counterexample :
    (mkWorkPackage "WP1" "Steel Structure" 0 0 0 5 0 0).variance_pct = 0 ∧
    calculate_period_variance 5 0 = 100 := by
  constructor
  · simp [mkWorkPackage, wpVariancePct]
  · norm_num [calculate_period_variance]

/-- C3 (amended): the parser's derived variance_pct equals
period_variance(fct_n, as_sold) when as_sold > 0 and is 0 otherwise (so
a package with as_sold = 0 has variance_pct = 0 even when fct_n > 0);
and calculate_period_variance agrees everywhere with the spec's
three-case formula (its last case read with the ℚ convention x/0 = 0). -/
theorem variance_pct_amended (code description : String)
    (as_sold committed ctc fct_n fct_n1 actuals current previous : ℚ) :
    (mkWorkPackage code description as_sold committed ctc fct_n fct_n1 actuals).variance_pct
        = (if as_sold > 0 then calculate_period_variance fct_n as_sold else 0) ∧
    calculate_period_variance current previous = specPeriodVariance current previous := by
  constructor
  · simp [mkWorkPackage, wpVariancePct]
  · unfold calculate_period_variance specPeriodVariance
    by_cases hp : previous = 0
    · by_cases hc : current > 0
      · have hcz : ¬ current = 0 := by linarith
        simp [hp, hc, hcz]
      · simp [hp, hc]
    · simp [hp]

/-- C2 counterexample: CM2 percentages (as_sold, fct_n1, fct_n) =
(0, 0, 5) — at least two of the three period values differ, yet the
code returns the no-data dict because neither the as-sold nor the prior
value is non-zero. -/
theorem margin_hist_counterexample :
    specHasHistoricalData 0 0 0 0 0 5 ∧
    calculate_margin_variability_metrics pdC2 =
      MarginVariabilityResult.noData 5 0
        "No historical margin data found for variability analysis" := by
  constructor
  · unfold specHasHistoricalData
    norm_num
  · simp [calculate_margin_variability_metrics, pdC2, zeroCostAnalysis, zeroRevenues]

/-- C2 (amended): has_historical_data is true iff some non-zero earlier
CM percentage (the as-sold or prior-forecast value, for CM2 or CM1)
differs from the corresponding current value; exactly otherwise the
analysis is skipped and the neutral no-data dict is returned. -/
theorem margin_hist_amended (pd : ProjectData) :
    ((calculate_margin_variability_metrics pd).histData = true ↔
      (((pd.cost_analysis.cm2_pct_as_sold ≠ 0 ∧
          pd.cost_analysis.cm2_pct_as_sold ≠ pd.cost_analysis.cm2_pct_fct_n) ∨
        (pd.cost_analysis.cm2_pct_fct_n1 ≠ 0 ∧
          pd.cost_analysis.cm2_pct_fct_n1 ≠ pd.cost_analysis.cm2_pct_fct_n)) ∨
       ((pd.cost_analysis.cm1_pct_as_sold ≠ 0 ∧
          pd.cost_analysis.cm1_pct_as_sold ≠ pd.cost_analysis.cm1_pct_fct_n) ∨
        (pd.cost_analysis.cm1_pct_fct_n1 ≠ 0 ∧
          pd.cost_analysis.cm1_pct_fct_n1 ≠ pd.cost_analysis.cm1_pct_fct_n)))) ∧
    (calculate_margin_variability_metrics pd =
        MarginVariabilityResult.noData pd.cost_analysis.cm2_pct_fct_n
          pd.cost_analysis.cm1_pct_fct_n
          "No historical margin data found for variability analysis" ↔
      (calculate_margin_variability_metrics pd).histData = false) := by
  unfold calculate_margin_variability_metrics
  by_cases hcond :
      ((pd.cost_analysis.cm2_pct_as_sold ≠ 0 ∧
          pd.cost_analysis.cm2_pct_as_sold ≠ pd.cost_analysis.cm2_pct_fct_n) ∨
        (pd.cost_analysis.cm2_pct_fct_n1 ≠ 0 ∧
          pd.cost_analysis.cm2_pct_fct_n1 ≠ pd.cost_analysis.cm2_pct_fct_n)) ∨
      ((pd.cost_analysis.cm1_pct_as_sold ≠ 0 ∧
          pd.cost_analysis.cm1_pct_as_sold ≠ pd.cost_analysis.cm1_pct_fct_n) ∨
        (pd.cost_analysis.cm1_pct_fct_n1 ≠ 0 ∧
          pd.cost_analysis.cm1_pct_fct_n1 ≠ pd.cost_analysis.cm1_pct_fct_n)) <;>
    simp [hcond, MarginVariabilityResult.histData]

/-- C10: for a work-package map with no risk-contingency package the
engine returns the sentinel bundle — has_contingency=false, efficiency
None (no numeric value), trend "No Contingency", status "N/A", and every
monetary or percentage field 0. -/
theorem contingency_sentinel (wps : List WorkPackage) (poc : ℚ)
    (h : wps.filter (fun wp => isRiskContingencyDesc wp.description) = []) :
    calculate_contingency_metrics wps poc =
      { has_contingency := false, contingency_as_sold := 0, contingency_fct_n1 := 0
        contingency_fct_n := 0, consumed_amount := 0, consumed_percentage := 0
        remaining_amount := 0, remaining_percentage := 0, efficiency := none
        trend := "No Contingency", trend_icon := "", status := "N/A"
        status_icon := "➖", status_color := "info", early_consumption := 0
        recent_consumption := 0 } := by
  unfold calculate_contingency_metrics
  simp [h]

/-- Closed instance of `contingency_sentinel` at the empty work-package
map with POC 0. -/
theorem contingency_sentinel_witness :
    calculate_contingency_metrics [] 0 =
      { has_contingency := false, contingency_as_sold := 0, contingency_fct_n1 := 0
        contingency_fct_n := 0, consumed_amount := 0, consumed_percentage := 0
        remaining_amount := 0, remaining_percentage := 0, efficiency := none
        trend := "No Contingency", trend_icon := "", status := "N/A"
        status_icon := "➖", status_color := "info", early_consumption := 0
        recent_consumption := 0 } :=
  contingency_sentinel [] 0 rfl

/-- With at least one risk-contingency package, the engine's
`consumed_percentage` and `efficiency` fields are the guarded
consumption percentage and the clamped efficiency formula. -/
theorem cont_fields (wps : List WorkPackage) (poc : ℚ)
    (hne : wps.filter (fun wp => isRiskContingencyDesc wp.description) ≠ []) :
    (calculate_contingency_metrics wps poc).consumed_percentage = contConsumedPct wps ∧
    (calculate_contingency_metrics wps poc).efficiency =
      some (max 0 (min 200
        (if poc > 0 then (2 - contConsumedPct wps / poc) * 100 else 200))) := by
  have hE : (wps.filter (fun wp => isRiskContingencyDesc wp.description)).isEmpty = false := by
    cases h : wps.filter (fun wp => isRiskContingencyDesc wp.description) with
    | nil => exact absurd h hne
    | cons a t => rfl
  unfold calculate_contingency_metrics contConsumedPct contSumAsSold contSumFctN
  simp [hE]

/-- C5: with at least one risk-contingency package and as_sold ≥ 0,
fct_n ∈ [0, as_sold], POC ∈ [0, 100], the computed efficiency is a
numeric value in [0, 200]; it is 200 when POC = 0 and otherwise the
clamp of (2 − consumed_pct/POC)×100 to [0, 200]. -/
theorem contingency_efficiency_bounds (wps : List WorkPackage) (poc : ℚ)
    (hne : wps.filter (fun wp => isRiskContingencyDesc wp.description) ≠ [])
    (hpoc0 : 0 ≤ poc) (hpoc1 : poc ≤ 100)
    (hs0 : 0 ≤ contSumAsSold wps) (hf0 : 0 ≤ contSumFctN wps)
    (hf1 : contSumFctN wps ≤ contSumAsSold wps) :
    ∃ e, (calculate_contingency_metrics wps poc).efficiency = some e ∧
      0 ≤ e ∧ e ≤ 200 ∧
      (poc = 0 → e = 200) ∧
      (0 < poc →
        e = max 0 (min 200
          ((2 - (calculate_contingency_metrics wps poc).consumed_percentage / poc) * 100))) := by
  obtain ⟨hcp, heff⟩ := cont_fields wps poc hne
  refine ⟨_, heff, le_max_left _ _, ?_, ?_, ?_⟩
  · exact max_le (by norm_num) (min_le_left _ _)
  · intro h0
    subst h0
    norm_num
  · intro hpos
    rw [hcp, if_pos hpos]

/-- Closed instance of `contingency_efficiency_bounds` at the spec's
worked contingency example. -/
theorem contingency_efficiency_bounds_witness :
    ∃ e, (calculate_contingency_metrics [wpC6] 40).efficiency = some e ∧
      0 ≤ e ∧ e ≤ 200 ∧
      ((40 : ℚ) = 0 → e = 200) ∧
      ((0 : ℚ) < 40 →
        e = max 0 (min 200
          ((2 - (calculate_contingency_metrics [wpC6] 40).consumed_percentage / 40) * 100))) :=
  contingency_efficiency_bounds [wpC6] 40
    (by simp [wpC6, mkWorkPackage, List.filter,
      show isRiskContingencyDesc "Risk Contingency" = true from by decide])
    (by norm_num) (by norm_num)
    (by norm_num [contSumAsSold, wpC6, mkWorkPackage, List.filter,
      show isRiskContingencyDesc "Risk Contingency" = true from by decide])
    (by norm_num [contSumFctN, wpC6, mkWorkPackage, List.filter,
      show isRiskContingencyDesc "Risk Contingency" = true from by decide])
    (by norm_num [contSumAsSold, contSumFctN, wpC6, mkWorkPackage, List.filter,
      show isRiskContingencyDesc "Risk Contingency" = true from by decide])

/-- C7: for each period with a positive selling price the derived
margins satisfy CM1 = price − EC and CM2 = CM1 − IC (hence
CM2 = price − EC − IC); for a period whose selling price is 0 the CM
fields stay at their parser-initialised 0. -/
theorem cm_identity (ca : CostAnalysis)
    (hz1 : ca.cm1_value_as_sold = 0) (hz2 : ca.cm2_value_as_sold = 0)
    (hz3 : ca.cm1_value_fct_n1 = 0) (hz4 : ca.cm2_value_fct_n1 = 0)
    (hz5 : ca.cm1_value_fct_n = 0) (hz6 : ca.cm2_value_fct_n = 0) :
    (0 < ca.selling_price_as_sold →
      (applyCMCalculations ca).cm1_value_as_sold =
          ca.selling_price_as_sold - ca.ec_total_as_sold ∧
        (applyCMCalculations ca).cm2_value_as_sold =
          (applyCMCalculations ca).cm1_value_as_sold - ca.ic_total_as_sold) ∧
    (ca.selling_price_as_sold = 0 →
      (applyCMCalculations ca).cm1_value_as_sold = 0 ∧
        (applyCMCalculations ca).cm2_value_as_sold = 0) ∧
    (0 < ca.selling_price_fct_n1 →
      (applyCMCalculations ca).cm1_value_fct_n1 =
          ca.selling_price_fct_n1 - ca.ec_total_fct_n1 ∧
        (applyCMCalculations ca).cm2_value_fct_n1 =
          (applyCMCalculations ca).cm1_value_fct_n1 - ca.ic_total_fct_n1) ∧
    (ca.selling_price_fct_n1 = 0 →
      (applyCMCalculations ca).cm1_value_fct_n1 = 0 ∧
        (applyCMCalculations ca).cm2_value_fct_n1 = 0) ∧
    (0 < ca.selling_price_fct_n →
      (applyCMCalculations ca).cm1_value_fct_n =
          ca.selling_price_fct_n - ca.ec_total_fct_n ∧
        (applyCMCalculations ca).cm2_value_fct_n =
          (applyCMCalculations ca).cm1_value_fct_n - ca.ic_total_fct_n) ∧
    (ca.selling_price_fct_n = 0 →
      (applyCMCalculations ca).cm1_value_fct_n = 0 ∧
        (applyCMCalculations ca).cm2_value_fct_n = 0) := by
  by_cases h1 : ca.selling_price_as_sold > 0 <;>
    by_cases h2 : ca.selling_price_fct_n1 > 0 <;>
      by_cases h3 : ca.selling_price_fct_n > 0 <;>
        refine ⟨fun h => ?_, fun h => ?_, fun h => ?_, fun h => ?_, fun h => ?_,
          fun h => ?_⟩ <;>
          first
            | (exfalso; linarith)
            | simp [applyCMCalculations, h1, h2, h3, hz1, hz2, hz3, hz4, hz5, hz6]

/-- Closed instance of `cm_identity` at a concrete cost-analysis record
with selling prices (1000, 0, 500). -/
theorem cm_identity_witness :
    (0 < caC7.selling_price_as_sold →
      (applyCMCalculations caC7).cm1_value_as_sold =
          caC7.selling_price_as_sold - caC7.ec_total_as_sold ∧
        (applyCMCalculations caC7).cm2_value_as_sold =
          (applyCMCalculations caC7).cm1_value_as_sold - caC7.ic_total_as_sold) ∧
    (caC7.selling_price_as_sold = 0 →
      (applyCMCalculations caC7).cm1_value_as_sold = 0 ∧
        (applyCMCalculations caC7).cm2_value_as_sold = 0) ∧
    (0 < caC7.selling_price_fct_n1 →
      (applyCMCalculations caC7).cm1_value_fct_n1 =
          caC7.selling_price_fct_n1 - caC7.ec_total_fct_n1 ∧
        (applyCMCalculations caC7).cm2_value_fct_n1 =
          (applyCMCalculations caC7).cm1_value_fct_n1 - caC7.ic_total_fct_n1) ∧
    (caC7.selling_price_fct_n1 = 0 →
      (applyCMCalculations caC7).cm1_value_fct_n1 = 0 ∧
        (applyCMCalculations caC7).cm2_value_fct_n1 = 0) ∧
    (0 < caC7.selling_price_fct_n →
      (applyCMCalculations caC7).cm1_value_fct_n =
          caC7.selling_price_fct_n - caC7.ec_total_fct_n ∧
        (applyCMCalculations caC7).cm2_value_fct_n =
          (applyCMCalculations caC7).cm1_value_fct_n - caC7.ic_total_fct_n) ∧
    (caC7.selling_price_fct_n = 0 →
      (applyCMCalculations caC7).cm1_value_fct_n = 0 ∧
        (applyCMCalculations caC7).cm2_value_fct_n = 0) :=
  cm_identity caC7 rfl rfl rfl rfl rfl rfl

/-- C4: the traffic-light classifier's tier agrees with the spec's
cascade in both modes, is total with NaN classified to the worst tier,
and (non-reverse, with monotonic cutoffs) a smaller value never gets a
strictly better tier. -/
theorem classifier_behaviour (t : Thresholds) (v : PyFloat) (r : Bool) (q q' : ℚ)
    (hq : q' ≤ q)
    (hm1 : t.good ≤ t.excellent) (hm2 : t.warning ≤ t.good)
    (hm3 : ∀ s, t.stable = some s → t.warning ≤ s ∧ s ≤ t.good) :
    (get_traffic_light_status v t r).2.2 = specClassifyTier v t r ∧
    (get_traffic_light_status PyFloat.nan t r).2.2 = Tier.critical ∧
    tierRank (get_traffic_light_status (PyFloat.num q') t false).2.2 ≤
      tierRank (get_traffic_light_status (PyFloat.num q) t false).2.2 := by
  refine ⟨?_, ?_, ?_⟩
  · cases r <;>
      · unfold get_traffic_light_status specClassifyTier
        split_ifs <;> rfl
  · cases hs : t.stable <;> cases r <;>
      simp [get_traffic_light_status, pyGe, pyLe, stableGe, hs]
  · cases hs : t.stable with
    | none =>
      simp only [get_traffic_light_status, pyGe, stableGe, hs, Bool.false_eq_true,
        if_false, decide_eq_true_eq]
      split_ifs <;> simp [tierRank] <;> linarith
    | some s =>
      simp only [get_traffic_light_status, pyGe, stableGe, hs, Bool.false_eq_true,
        if_false, decide_eq_true_eq]
      split_ifs <;> simp [tierRank] <;> linarith

/-- Closed instance of `classifier_behaviour` at the revenue-growth
thresholds. -/
theorem classifier_behaviour_witness :
    (get_traffic_light_status (PyFloat.num 7) thrC4 false).2.2 =
        specClassifyTier (PyFloat.num 7) thrC4 false ∧
      (get_traffic_light_status PyFloat.nan thrC4 false).2.2 = Tier.critical ∧
      tierRank (get_traffic_light_status (PyFloat.num 0) thrC4 false).2.2 ≤
        tierRank (get_traffic_light_status (PyFloat.num 20) thrC4 false).2.2 :=
  classifier_behaviour thrC4 (PyFloat.num 7) false 20 0 (by norm_num)
    (by norm_num [thrC4]) (by norm_num [thrC4])
    (by
      intro s hs
      simp only [thrC4] at hs
      injection hs with hs
      rw [← hs]
      norm_num [thrC4])

/-- Every finding the margin rule emits carries type "Margin Risk". -/
theorem riskMargin_rtype (pd : ProjectData) (r : RiskFactor)
    (h : r ∈ riskMargin pd) : r.rtype = "Margin Risk" := by
  unfold riskMargin at h
  dsimp only at h
  split_ifs at h <;> simp_all

/-- Every finding the commitment rule emits carries type
"Cost Commitment". -/
theorem riskCommitment_rtype (pd : ProjectData) (r : RiskFactor)
    (h : r ∈ riskCommitment pd) : r.rtype = "Cost Commitment" := by
  unfold riskCommitment at h
  dsimp only at h
  split_ifs at h <;> simp_all

/-- Every finding the cost-variance rule emits carries type
"Cost Variance". -/
theorem riskCostVariance_rtype (pd : ProjectData) (r : RiskFactor)
    (h : r ∈ riskCostVariance pd) : r.rtype = "Cost Variance" := by
  unfold riskCostVariance at h
  dsimp only at h
  split_ifs at h <;> simp_all

/-- Every finding the schedule rule emits carries type "Schedule Risk". -/
theorem riskSchedule_rtype (pd : ProjectData) (r : RiskFactor)
    (h : r ∈ riskSchedule pd) : r.rtype = "Schedule Risk" := by
  unfold riskSchedule at h
  dsimp only at h
  split_ifs at h <;> simp_all

/-- Every finding the cash-flow rule emits carries type "Cash Flow". -/
theorem riskCashFlow_rtype (pd : ProjectData) (r : RiskFactor)
    (h : r ∈ riskCashFlow pd) : r.rtype = "Cash Flow" := by
  unfold riskCashFlow at h
  dsimp only at h
  split_ifs at h <;> simp_all

/-- Every finding the revenue rule emits carries type "Revenue Risk". -/
theorem riskRevenue_rtype (pd : ProjectData) (r : RiskFactor)
    (h : r ∈ riskRevenue pd) : r.rtype = "Revenue Risk" := by
  unfold riskRevenue at h
  dsimp only at h
  split_ifs at h <;> simp_all

/-- Every finding the contingency-adequacy rule emits carries type
"Contingency Risk". -/
theorem riskContingencyAdequacy_rtype (pd : ProjectData) (r : RiskFactor)
    (h : r ∈ riskContingencyAdequacy pd) : r.rtype = "Contingency Risk" := by
  unfold riskContingencyAdequacy at h
  dsimp only at h
  split_ifs at h <;> simp_all

/-- Every finding the concentration rule emits carries type
"WP Performance Risk". -/
theorem riskWpConcentration_rtype (pd : ProjectData) (r : RiskFactor)
    (h : r ∈ riskWpConcentration pd) : r.rtype = "WP Performance Risk" := by
  unfold riskWpConcentration at h
  split_ifs at h <;> simp_all

/-- Every finding the buffer rule emits carries type
"Financial Buffer Risk". -/
theorem riskFinancialBuffer_rtype (pd : ProjectData) (r : RiskFactor)
    (h : r ∈ riskFinancialBuffer pd) : r.rtype = "Financial Buffer Risk" := by
  unfold riskFinancialBuffer at h
  split_ifs at h <;> simp_all

/-- A rule whose findings all carry a fixed type other than `c`
contributes nothing to the filter by type `c`. -/
theorem filter_rtype_nil (l : List RiskFactor) (c c' : String)
    (hc : ∀ r ∈ l, r.rtype = c) (hne : c ≠ c') :
    l.filter (fun r => r.rtype == c') = [] := by
  rw [List.filter_eq_nil_iff]
  intro a ha
  simp [hc a ha, hne]

/-- A rule whose findings all carry a fixed type other than `c`
contributes nothing to the count by type `c`. -/
theorem countP_rtype_zero (l : List RiskFactor) (c c' : String)
    (hc : ∀ r ∈ l, r.rtype = c) (hne : c ≠ c') :
    l.countP (fun r => r.rtype == c') = 0 := by
  rw [List.countP_eq_zero]
  intro a ha
  simp [hc a ha, hne]

/-- C8: a project with no risk-contingency work package gets exactly one
"Contingency Risk" finding — the High-severity establish-a-risk-budget
one — whatever its other metrics; the remaining-contingency branches
need contingency entries. -/
theorem no_contingency_single_finding (pd : ProjectData)
    (h : pd.work_packages.filter (fun wp => isRiskContingencyDesc wp.description) = []) :
    (assess_project_risks pd).filter (fun r => r.rtype == "Contingency Risk") =
      [{ rtype := "Contingency Risk", severity := "High"
         description := RiskDesc.noContingencyIdentified, impact := "High"
         recommendation := "Establish risk contingency budget for unforeseen events" }] := by
  have had : riskContingencyAdequacy pd =
      [{ rtype := "Contingency Risk", severity := "High"
         description := RiskDesc.noContingencyIdentified, impact := "High"
         recommendation := "Establish risk contingency budget for unforeseen events" }] := by
    unfold riskContingencyAdequacy riskContingencyList
    simp [h]
  unfold assess_project_risks
  simp only [List.filter_append]
  rw [filter_rtype_nil _ _ _ (riskMargin_rtype pd) (by decide),
    filter_rtype_nil _ _ _ (riskCommitment_rtype pd) (by decide),
    filter_rtype_nil _ _ _ (riskCostVariance_rtype pd) (by decide),
    filter_rtype_nil _ _ _ (riskSchedule_rtype pd) (by decide),
    filter_rtype_nil _ _ _ (riskCashFlow_rtype pd) (by decide),
    filter_rtype_nil _ _ _ (riskRevenue_rtype pd) (by decide),
    filter_rtype_nil _ _ _ (riskWpConcentration_rtype pd) (by decide),
    filter_rtype_nil _ _ _ (riskFinancialBuffer_rtype pd) (by decide), had]
  simp

/-- Closed instance of `no_contingency_single_finding` at a project with
an empty work-package map. -/
theorem no_contingency_single_finding_witness :
    (assess_project_risks pdC2).filter (fun r => r.rtype == "Contingency Risk") =
      [{ rtype := "Contingency Risk", severity := "High"
         description := RiskDesc.noContingencyIdentified, impact := "High"
         recommendation := "Establish risk contingency budget for unforeseen events" }] :=
  no_contingency_single_finding pdC2 rfl

/-- C1 (amended): the "WP Performance Risk" High finding is appended
exactly when the project has work packages and the number of
non-contingency packages with variance_pct > 15 exceeds 30% of the count
of ALL work packages (contingency lines included in the denominator). -/
theorem wp_concentration_amended (pd : ProjectData) :
    (assess_project_risks pd).countP (fun r => r.rtype == "WP Performance Risk") =
      if pd.work_packages.length > 0 ∧
          ((highVarianceWps pd).length : ℚ) / (pd.work_packages.length : ℚ) > 0.3
      then 1 else 0 := by
  unfold assess_project_risks
  simp only [List.countP_append]
  rw [countP_rtype_zero _ _ _ (riskMargin_rtype pd) (by decide),
    countP_rtype_zero _ _ _ (riskCommitment_rtype pd) (by decide),
    countP_rtype_zero _ _ _ (riskCostVariance_rtype pd) (by decide),
    countP_rtype_zero _ _ _ (riskSchedule_rtype pd) (by decide),
    countP_rtype_zero _ _ _ (riskCashFlow_rtype pd) (by decide),
    countP_rtype_zero _ _ _ (riskRevenue_rtype pd) (by decide),
    countP_rtype_zero _ _ _ (riskContingencyAdequacy_rtype pd) (by decide),
    countP_rtype_zero _ _ _ (riskFinancialBuffer_rtype pd) (by decide)]
  unfold riskWpConcentration
  split_ifs <;> simp

/-- C1 counterexample: in `pdC1` more than 30% of the non-contingency
work packages (1 of 2) exceed +15% variance, yet the code appends no
"WP Performance Risk" finding because its fraction uses all four
packages (1/4 ≤ 0.3). -/
theorem wp_concentration_counterexample :
    specWpConcentration pdC1 ∧
    (assess_project_risks pdC1).countP (fun r => r.rtype == "WP Performance Risk") = 0 := by
  have hA : isRiskContingencyDesc "Risk Contingency A" = true := by decide
  have hB : isRiskContingencyDesc "Risk Contingency B" = true := by decide
  have hC : isRiskContingencyDesc "Civil Works" = false := by decide
  have hD : isRiskContingencyDesc "Electrical Works" = false := by decide
  constructor
  · unfold specWpConcentration
    norm_num [pdC1, mkWorkPackage, List.filter, hA, hB, hC, hD, wpVariancePct,
      calculate_period_variance]
  · have hwc : riskWpConcentration pdC1 = [] := by
      unfold riskWpConcentration highVarianceWps
      norm_num [pdC1, mkWorkPackage, List.filter, hA, hB, hC, hD, wpVariancePct,
        calculate_period_variance]
    unfold assess_project_risks
    simp only [List.countP_append]
    rw [countP_rtype_zero _ _ _ (riskMargin_rtype pdC1) (by decide),
      countP_rtype_zero _ _ _ (riskCommitment_rtype pdC1) (by decide),
      countP_rtype_zero _ _ _ (riskCostVariance_rtype pdC1) (by decide),
      countP_rtype_zero _ _ _ (riskSchedule_rtype pdC1) (by decide),
      countP_rtype_zero _ _ _ (riskCashFlow_rtype pdC1) (by decide),
      countP_rtype_zero _ _ _ (riskRevenue_rtype pdC1) (by decide),
      countP_rtype_zero _ _ _ (riskContingencyAdequacy_rtype pdC1) (by decide),
      countP_rtype_zero _ _ _ (riskFinancialBuffer_rtype pdC1) (by decide), hwc]
    simp

/-- C9: prepending a project whose current contract value is 0 leaves
the portfolio summary unchanged — the project is excluded from every
aggregate rather than counted with zero weight. -/
theorem zero_contract_excluded (p : ProjectData)
    (pf : List (Option ProjectData)) (h : p.revenues.contract_n = 0) :
    create_enhanced_portfolio_summary (some p :: pf) =
      create_enhanced_portfolio_summary pf := by
  have hstep : ∀ m : PMetrics, summaryStep m (some p) = m := by
    intro m
    simp [summaryStep, h]
  cases pf with
  | nil =>
    unfold create_enhanced_portfolio_summary
    simp [hstep, initPMetrics]
  | cons e t =>
    unfold create_enhanced_portfolio_summary
    simp [hstep]

/-- Closed instance of `zero_contract_excluded`: a zero-contract project
prepended to a one-project portfolio. -/
theorem zero_contract_excluded_witness :
    create_enhanced_portfolio_summary [some pdZeroContract, some pdValid] =
      create_enhanced_portfolio_summary [some pdValid] :=
  zero_contract_excluded pdZeroContract [some pdValid] rfl

end PortfolioKPIs
